import Mathlib

/-!
Shallow embedding of the calculator core of the Numcal firmware
(`src/Calculator.cpp`, `include/Calculator.hpp`) and proofs about it.

Modelling conventions:
- The C `double` is modelled as an exact rational held as an unreduced
  numerator/denominator pair (`Q`); every denominator produced by the
  embedded operations is nonzero (division is only reached behind the
  code's own zero test).  IEEE rounding is outside the model.
- `char` buffers (`input`, `resultBuffer`) are modelled as the list of
  characters strictly before the first NUL terminator; the C capacity
  `CALC_VALUE_SIZE` shows up as the bound in `push` and the truncation
  in `double_to_str`.
- The EEPROM memory bank is modelled as a total map from slot index to
  the stored numeric value: the byte-level `MemorySlot` union in the C
  code round-trips a `double` exactly, so only the value is kept.
- `String(value, CALC_PRECISION)` (Arduino/avr-libc `dtostrf`) is
  modelled as fixed-point formatting with `CALC_PRECISION` fractional
  digits, rounding to nearest with halves away from zero.
- `Keyboard.print`, `u8g2` drawing and the key matrix are external
  collaborators; they read state but never mutate it, so they do not
  appear in the state transition functions.
-/

namespace Numcal

/-- `#define CALC_VALUE_SIZE 16` (Calculator.hpp). -/
def CALC_VALUE_SIZE : Nat := 16

/-- `#define CALC_PRECISION 4` (Calculator.hpp). -/
def CALC_PRECISION : Nat := 4

/-- Exact rational model of the C `double`: an unreduced
numerator/denominator pair.  All operations below keep the denominator
nonzero on the values the calculator actually produces. -/
structure Q where
  num : Int
  den : Nat
deriving DecidableEq, Repr

/-- The double `0.0`. -/
def Q.zero : Q := ⟨0, 1⟩

/-- Embeds an integer as a double. -/
def Q.ofInt (n : Int) : Q := ⟨n, 1⟩

/-- Value equality of two doubles (the C `==` on `double`), decided by
cross multiplication. -/
def Q.beq (a b : Q) : Bool := a.num * (b.den : Int) == b.num * (a.den : Int)

/-- `left + right` on doubles. -/
def Q.add (a b : Q) : Q := ⟨a.num * (b.den : Int) + b.num * (a.den : Int), a.den * b.den⟩

/-- `left - right` on doubles. -/
def Q.sub (a b : Q) : Q := ⟨a.num * (b.den : Int) - b.num * (a.den : Int), a.den * b.den⟩

/-- `left * right` on doubles. -/
def Q.mul (a b : Q) : Q := ⟨a.num * b.num, a.den * b.den⟩

/-- Reciprocal of a double (used only behind the code's zero test). -/
def Q.inv (a : Q) : Q :=
  if a.num < 0 then ⟨-(a.den : Int), a.num.natAbs⟩ else ⟨(a.den : Int), a.num.natAbs⟩

/-- `left / right` on doubles. -/
def Q.div (a b : Q) : Q := a.mul b.inv

/-- Interpretation of `Q` as a mathematical rational. -/
def Q.toRat (a : Q) : ℚ := (a.num : ℚ) / (a.den : ℚ)

/-- Reading a position of a NUL-terminated C buffer: past the stored
characters the terminator (NUL) is read. -/
def chAt (l : List Char) (i : Nat) : Char := l.getD i (Char.ofNat 0)

/-- Digit run of `atof`: consumes leading decimal digits, accumulating
their value. -/
def parseDigits : List Char → Nat → Nat × List Char
  | c :: rest, acc =>
    if '0' ≤ c ∧ c ≤ '9' then parseDigits rest (acc * 10 + (c.toNat - '0'.toNat))
    else (acc, c :: rest)
  | [], acc => (acc, [])

/-- Fraction run of `atof`: consumes digits after the point, returning
their value and how many there were. -/
def parseFrac : List Char → Nat → Nat → Nat × Nat
  | c :: rest, acc, k =>
    if '0' ≤ c ∧ c ≤ '9' then parseFrac rest (acc * 10 + (c.toNat - '0'.toNat)) (k + 1)
    else (acc, k)
  | [], acc, k => (acc, k)

/-- `atof` restricted to the strings the calculator can hold in its
input buffer: an optional leading minus, digits, an optional point,
digits.  (`atof`'s whitespace and exponent forms are unreachable from
the key handling.) -/
def atofQ (s : List Char) : Q :=
  let p : Bool × List Char :=
    match s with
    | '-' :: r => (true, r)
    | _ => (false, s)
  let ip := parseDigits p.2 0
  let fr : Nat × Nat :=
    match ip.2 with
    | '.' :: r => parseFrac r 0 0
    | _ => (0, 0)
  let mag : Nat := ip.1 * 10 ^ fr.2 + fr.1
  ⟨if p.1 then -(mag : Int) else (mag : Int), 10 ^ fr.2⟩

/-- Decimal digit characters of a natural number. -/
def natDigits (n : Nat) : List Char := Nat.toDigits 10 n

/-- `String(value, prec)` of the Arduino core (`dtostrf`): sign, integer
part, point, exactly `prec` fractional digits, rounded to nearest with
halves away from zero. -/
def formatFixed (value : Q) (prec : Nat) : List Char :=
  let scaled : Nat := (value.num.natAbs * 10 ^ prec * 2 + value.den) / (2 * value.den)
  let fracDigits := natDigits (scaled % 10 ^ prec)
  (if value.num < 0 then ['-'] else []) ++ natDigits (scaled / 10 ^ prec) ++
    '.' :: (List.replicate (prec - fracDigits.length) '0' ++ fracDigits)

/-- The zero-trimming loop of `double_to_str`: drops all trailing `'0'`
characters, then one trailing `'.'` if it is exposed. -/
def trimZeros (s : List Char) : List Char :=
  (if chAt (s.reverse.dropWhile (fun ch => ch = '0')) 0 = '.'
    then (s.reverse.dropWhile (fun ch => ch = '0')).tail
    else s.reverse.dropWhile (fun ch => ch = '0')).reverse

/-- `double_to_str(buffer, value)`: format with `CALC_PRECISION`
fractional digits, truncate to the `CALC_VALUE_SIZE`-char buffer
(`toCharArray`), then trim trailing zeros and a trailing point. -/
def double_to_str (value : Q) : List Char :=
  trimZeros ((formatFixed value CALC_PRECISION).take CALC_VALUE_SIZE)

/-- The calculator state: the fields of `class Calculator` plus the
EEPROM memory bank it reads and writes. -/
structure Calculator where
  drawNext : Bool
  input : List Char
  result : Q
  resultBuffer : List Char
  pendingOperation : Char
  staleInput : Bool
  error : Bool
  memory : Nat → Q

/-- `Calculator::push`: writes `value` at the first NUL of `target` if
one exists among the first `CALC_VALUE_SIZE` cells, else rejects the
character leaving the buffer unchanged. -/
def push (target : List Char) (value : Char) : List Char :=
  if target.length < CALC_VALUE_SIZE then target ++ [value] else target

/-- `Calculator::clearInput`. -/
def clearInput (c : Calculator) : Calculator :=
  { c with input := [], staleInput := true }

/-- `Calculator::updateResultBuffer`. -/
def updateResultBuffer (c : Calculator) : Calculator :=
  { c with resultBuffer := double_to_str c.result }

/-- `Calculator::clearResult`. -/
def clearResult (c : Calculator) : Calculator :=
  updateResultBuffer { c with result := Q.zero }

/-- `Calculator::getInput`: an empty buffer reads as `"0"`. -/
def getInput (c : Calculator) : List Char :=
  if c.input.isEmpty then ['0'] else c.input

/-- `Calculator::getResult`. -/
def getResult (c : Calculator) : List Char := c.resultBuffer

/-- `Calculator::pushInput`: a stale buffer is emptied first, the flag
is lowered, then the character is pushed. -/
def pushInput (c : Calculator) (value : Char) : Calculator :=
  { c with
    input := push (if c.staleInput = true then [] else c.input) value,
    staleInput := false }

/-- `Calculator::hasPoint`: scans the input buffer (up to the capacity
or the terminator) for a `'.'`. -/
def hasPoint (c : Calculator) : Bool :=
  (c.input.take CALC_VALUE_SIZE).any (fun ch => ch = '.')

/-- `Calculator::doNumeric`: a stale buffer is cleared first; otherwise
a `'0'` is dropped when the buffer starts with `'0'` or with `"-0"`;
otherwise the digit is pushed. -/
def doNumeric (c : Calculator) (input : Char) : Calculator :=
  if c.staleInput = true then pushInput (clearInput c) input
  else if input = '0' ∧ (chAt c.input 0 = '0' ∨ (chAt c.input 0 = '-' ∧ chAt c.input 1 = '0')) then c
  else pushInput c input

/-- `Calculator::doMath`: applies the pending operation to the running
result and the parsed input.  Division by an input equal to zero raises
the error flag and returns before touching the result or its display
buffer; an unrecognized operation (in particular the initial NUL)
replaces the result by the input and returns before updating the
display buffer. -/
def doMath (c : Calculator) (op : Char) : Calculator :=
  let input := atofQ (getInput c)
  let c1 : Calculator := { c with error := false }
  if op = '+' then updateResultBuffer { c1 with result := c1.result.add input }
  else if op = '-' then updateResultBuffer { c1 with result := c1.result.sub input }
  else if op = '*' ∨ op = 'x' then updateResultBuffer { c1 with result := c1.result.mul input }
  else if op = '/' then
    if Q.beq input Q.zero = true then { c1 with error := true }
    else updateResultBuffer { c1 with result := c1.result.div input }
  else { c1 with result := input }

/-- `Calculator::loadMemory`: reads the slot's bytes back as a double
and formats it into the input buffer. -/
def loadMemory (c : Calculator) (slot : Nat) : Calculator :=
  { c with input := double_to_str (c.memory slot) }

/-- `Calculator::storeMemory`: overwrites the slot's bytes with the
given double. -/
def storeMemory (c : Calculator) (slot : Nat) (data : Q) : Calculator :=
  { c with memory := fun i => if i = slot then data else c.memory i }

/-- `Calculator::doOperation`: the non-digit key dispatch.  The `'-'`
case starts a negative number when the buffer is empty or stale and
otherwise falls through to the binary-operator handling; `'C'` clears
the input if present, else resets result and pending operation; `'.'`
seeds a leading zero on stale input and pushes at most one point;
`'\n'` commits unconditionally. -/
def doOperation (c : Calculator) (op : Char) : Calculator :=
  if op = 'a' ∨ op = 'b' ∨ op = 'c' ∨ op = 'd' then
    loadMemory c (op.toNat - 'a'.toNat)
  else if op = '-' ∧ (c.input = [] ∨ c.staleInput = true) then
    { c with input := ['-'], staleInput := false }
  else if op = '-' ∨ op = '+' ∨ op = '/' ∨ op = '*' ∨ op = 'x' then
    { (if c.input ≠ [] ∧ c.staleInput = false then doMath c c.pendingOperation else c) with
      pendingOperation := op, staleInput := true }
  else if op = 'C' then
    if c.input = [] then { clearResult c with pendingOperation := Char.ofNat 0 }
    else clearInput c
  else if op = '.' then
    let c1 := if c.staleInput = true then pushInput c '0' else c
    if hasPoint c1 = false then pushInput c1 '.' else c1
  else if op = '\n' then
    { doMath c c.pendingOperation with staleInput := true }
  else c

/-- `Calculator::onPress(char)`: digits go to `doNumeric`, everything
else to `doOperation`; the redraw flag is raised first. -/
def onPress (c : Calculator) (input : Char) : Calculator :=
  let c1 : Calculator := { c with drawNext := true }
  if '0' ≤ input ∧ input ≤ '9' then doNumeric c1 input else doOperation c1 input

/-- `Calculator::onLongPress(char)`: a memory key stores the running
result into its slot and copies the result display string into the
input buffer; the `'.'`/NUL shortcut types the result to the host
(an external effect, no state change beyond the redraw flag). -/
def onLongPress (c : Calculator) (input : Char) : Calculator :=
  let c1 : Calculator := { c with drawNext := true }
  if input = 'a' ∨ input = 'b' ∨ input = 'c' ∨ input = 'd' then
    let c2 := storeMemory c1 (input.toNat - 'a'.toNat) c1.result
    { c2 with input := getResult c2 }
  else c1

/-- `Calculator::onShow`: raises the redraw flag, clears the input and
clears the result. -/
def onShow (c : Calculator) : Calculator :=
  clearResult (clearInput { c with drawNext := true })

/-- `Calculator::Calculator()`: clears input and result.
`pendingOperation` has an in-class initializer `0`; `error` is an
uninitialized member, so the state it starts in is a parameter; the
EEPROM contents at power-up are likewise a parameter. -/
def initCalc (mem : Nat → Q) (err : Bool) : Calculator :=
  clearResult (clearInput
    { drawNext := true, input := [], result := Q.zero, resultBuffer := [],
      pendingOperation := Char.ofNat 0, staleInput := true, error := err, memory := mem })

/-- Folds a list of key presses into the state. -/
def pressList (c : Calculator) (l : List Char) : Calculator := l.foldl onPress c

/-- Both character buffers of the state fit their `CALC_VALUE_SIZE`-cell
C arrays (the NUL terminator lives one past these characters). -/
def BuffersFit (c : Calculator) : Prop :=
  c.input.length ≤ CALC_VALUE_SIZE ∧ c.resultBuffer.length ≤ CALC_VALUE_SIZE

/-! ### Soundness of the rational model

The pair arithmetic of `Q` agrees with Mathlib's rationals under the
interpretation `Q.toRat`, so the embedded `doMath` really computes the
field operations the C doubles approximate. -/

theorem Q.toRat_add (a b : Q) (ha : a.den ≠ 0) (hb : b.den ≠ 0) :
    (a.add b).toRat = a.toRat + b.toRat := by
  have ha' : (a.den : ℚ) ≠ 0 := Nat.cast_ne_zero.mpr ha
  have hb' : (b.den : ℚ) ≠ 0 := Nat.cast_ne_zero.mpr hb
  unfold Q.add Q.toRat
  field_simp

theorem Q.toRat_sub (a b : Q) (ha : a.den ≠ 0) (hb : b.den ≠ 0) :
    (a.sub b).toRat = a.toRat - b.toRat := by
  have ha' : (a.den : ℚ) ≠ 0 := Nat.cast_ne_zero.mpr ha
  have hb' : (b.den : ℚ) ≠ 0 := Nat.cast_ne_zero.mpr hb
  unfold Q.sub Q.toRat
  field_simp
  ring

theorem Q.toRat_mul (a b : Q) :
    (a.mul b).toRat = a.toRat * b.toRat := by
  unfold Q.mul Q.toRat
  push_cast
  ring

theorem Q.toRat_inv (a : Q) (h : a.num ≠ 0) : a.inv.toRat = a.toRat⁻¹ := by
  unfold Q.inv Q.toRat
  rcases lt_trichotomy a.num 0 with hlt | heq | hgt
  · rw [if_pos hlt]
    have : (a.num.natAbs : ℚ) = -(a.num : ℚ) := by
      rw [Int.cast_natAbs]
      simp [abs_of_neg (show (a.num : ℚ) < 0 by exact_mod_cast hlt)]
    rw [this]
    push_cast
    field_simp
  · exact absurd heq h
  · rw [if_neg (by omega)]
    have : (a.num.natAbs : ℚ) = (a.num : ℚ) := by
      rw [Int.cast_natAbs]
      simp [abs_of_pos (show (0 : ℚ) < a.num by exact_mod_cast hgt)]
    rw [this]
    field_simp

theorem Q.toRat_div (a b : Q) (hb : b.num ≠ 0) :
    (a.div b).toRat = a.toRat / b.toRat := by
  unfold Q.div
  rw [Q.toRat_mul, Q.toRat_inv b hb, div_eq_mul_inv]

theorem Q.beq_iff_toRat (a b : Q) (ha : a.den ≠ 0) (hb : b.den ≠ 0) :
    Q.beq a b = true ↔ a.toRat = b.toRat := by
  have ha' : (a.den : ℚ) ≠ 0 := Nat.cast_ne_zero.mpr ha
  have hb' : (b.den : ℚ) ≠ 0 := Nat.cast_ne_zero.mpr hb
  unfold Q.beq Q.toRat
  rw [div_eq_div_iff ha' hb', beq_iff_eq]
  constructor
  · intro h
    exact_mod_cast congrArg (fun z : Int => (z : ℚ)) h
  · intro h
    exact_mod_cast h

theorem atofQ_den_ne_zero (s : List Char) : (atofQ s).den ≠ 0 := by
  unfold atofQ
  exact Nat.pos_iff_ne_zero.mp (Nat.pos_pow_of_pos _ (by omega))

/-! ### Shared evaluation and bound lemmas -/

theorem double_to_str_zero : double_to_str Q.zero = ['0'] := by decide

theorem trimZeros_length_le (s : List Char) : (trimZeros s).length ≤ s.length := by
  have h1 : (s.reverse.dropWhile (fun ch => ch = '0')).length ≤ s.length := by
    have h2 := (List.dropWhile_sublist (p := fun ch : Char => decide (ch = '0'))
      (l := s.reverse)).length_le
    simpa using h2
  unfold trimZeros
  rw [List.length_reverse]
  split
  · exact le_trans (by simp [List.length_tail]) h1
  · exact h1

theorem double_to_str_length_le (q : Q) : (double_to_str q).length ≤ CALC_VALUE_SIZE := by
  have h1 := trimZeros_length_le ((formatFixed q CALC_PRECISION).take CALC_VALUE_SIZE)
  have h2 : ((formatFixed q CALC_PRECISION).take CALC_VALUE_SIZE).length ≤ CALC_VALUE_SIZE := by
    simp [List.length_take]
  exact le_trans h1 h2

theorem push_length_le (t : List Char) (v : Char) (h : t.length ≤ CALC_VALUE_SIZE) :
    (push t v).length ≤ CALC_VALUE_SIZE := by
  unfold push
  split
  · next hlt => simpa using hlt
  · exact h

theorem push_at_capacity (t : List Char) (v : Char) (h : t.length = CALC_VALUE_SIZE) :
    push t v = t := by
  unfold push
  rw [if_neg (by omega)]

/-! ### C1: division by zero on commit -/

/-- C1: committing with pending operator `div` fails exactly when the parsed
input is zero (the code's exact `input == 0` test); on failure the error flag
is raised and the running result and its display buffer are untouched; on a
nonzero operand the result becomes `left / right` and the error flag is
lowered. -/
theorem C1_div_commit (c : Calculator) :
    ((doMath c '/').error = true ↔ Q.beq (atofQ (getInput c)) Q.zero = true) ∧
    (Q.beq (atofQ (getInput c)) Q.zero = true →
      (doMath c '/').result = c.result ∧ (doMath c '/').resultBuffer = c.resultBuffer) ∧
    (Q.beq (atofQ (getInput c)) Q.zero = false →
      (doMath c '/').result = c.result.div (atofQ (getInput c)) ∧
      (doMath c '/').error = false) := by
  by_cases h : Q.beq (atofQ (getInput c)) Q.zero = true
  · simp +decide [doMath, h]
  · simp +decide [doMath, h, updateResultBuffer]

/-- Witness for C1: an empty input parses as zero and trips the error flag; an
input of `"5"` divides. -/
theorem C1_div_commit_witness :
    (doMath (initCalc (fun _ => Q.zero) false) '/').error = true ∧
    (doMath (pressList (initCalc (fun _ => Q.zero) false) ['5']) '/').result =
      (pressList (initCalc (fun _ => Q.zero) false) ['5']).result.div
        (atofQ (getInput (pressList (initCalc (fun _ => Q.zero) false) ['5']))) :=
  ⟨(C1_div_commit (initCalc (fun _ => Q.zero) false)).1.mpr (by decide),
   ((C1_div_commit (pressList (initCalc (fun _ => Q.zero) false) ['5'])).2.2 (by decide)).1⟩

/-! ### C2: chained operator presses -/

/-- C2 counterexample: from the initial state, pressing `+` then `-` leaves
the pending operator `+`, not `-`: the `-` press starts a negative number
(buffer `"-"`) instead of replacing the operator. -/
theorem C2_chain_counterexample :
    (pressList (initCalc (fun _ => Q.zero) false) ['+', '-']).pendingOperation = '+' ∧
    ¬ (pressList (initCalc (fun _ => Q.zero) false) ['+', '-']).pendingOperation = '-' ∧
    (pressList (initCalc (fun _ => Q.zero) false) ['+', '-']).input = ['-'] := by
  decide

/-- C2 amended: pressing `+` then `-` with no digit in between leaves the
pending operator `add` (`'+'`), sets the input buffer to `"-"` (the start of a
negative number, with the stale flag lowered), and the `-` press applies no
arithmetic: the running result is unchanged from the state after the `+`
press. -/
theorem C2_chain_amended (c : Calculator) :
    (onPress (onPress c '+') '-').pendingOperation = '+' ∧
    (onPress (onPress c '+') '-').input = ['-'] ∧
    (onPress (onPress c '+') '-').staleInput = false ∧
    (onPress (onPress c '+') '-').result = (onPress c '+').result := by
  simp +decide [onPress, doOperation]

/-! ### C3: Clear with empty input -/

/-- C3 counterexample: after `7 / 0 =`, pressing Clear twice reaches the
empty-input Clear path; the result and pending operator are reset, yet the
error flag is still raised. -/
theorem C3_clear_counterexample :
    (pressList (initCalc (fun _ => Q.zero) false) ['7', '/', '0', '\n', 'C']).input = [] ∧
    (pressList (initCalc (fun _ => Q.zero) false) ['7', '/', '0', '\n', 'C', 'C']).error = true ∧
    (pressList (initCalc (fun _ => Q.zero) false) ['7', '/', '0', '\n', 'C', 'C']).result
      = Q.zero ∧
    (pressList (initCalc (fun _ => Q.zero) false) ['7', '/', '0', '\n', 'C', 'C']).pendingOperation
      = Char.ofNat 0 := by
  decide

/-- C3 amended: pressing Clear while the input buffer is empty resets the
running result to zero (display `"0"`) and the pending operator to none, but
leaves the error flag unchanged; the flag is only lowered by the next commit
(`doMath`). -/
theorem C3_clear_amended (c : Calculator) (h : c.input = []) :
    (onPress c 'C').result = Q.zero ∧
    (onPress c 'C').resultBuffer = ['0'] ∧
    (onPress c 'C').pendingOperation = Char.ofNat 0 ∧
    (onPress c 'C').error = c.error := by
  simp +decide [onPress, doOperation, h, clearResult, updateResultBuffer, double_to_str_zero]

/-- Witness for C3 amended: a state with the error flag raised and no input
keeps the flag raised across Clear. -/
theorem C3_clear_amended_witness :
    (initCalc (fun _ => Q.zero) true).input = [] ∧
    (onPress (initCalc (fun _ => Q.zero) true) 'C').error = true :=
  ⟨by decide,
   ((C3_clear_amended (initCalc (fun _ => Q.zero) true) (by decide)).2.2.2).trans (by decide)⟩

/-! ### C4: memory recall -/

/-- C4 counterexample: a short press of `a` loads the slot's formatted value
into the input buffer but leaves the stale flag raised (the initial state is
stale), so a following operator press does not commit the recalled value:
the running result stays zero instead of becoming 5. -/
theorem C4_recall_counterexample :
    (onPress (initCalc (fun _ => Q.ofInt 5) false) 'a').input = ['5'] ∧
    (onPress (initCalc (fun _ => Q.ofInt 5) false) 'a').staleInput = true ∧
    (onPress (onPress (initCalc (fun _ => Q.ofInt 5) false) 'a') '+').result = Q.zero := by
  decide

/-- C4 amended: a short press of a memory key sets the input buffer to the
slot's formatted value but leaves the stale flag — and the rest of the state —
unchanged; the recalled value is committed by a following operator press only
if the flag happened to be low already. -/
theorem C4_recall_amended (c : Calculator) (k : Char)
    (h : k = 'a' ∨ k = 'b' ∨ k = 'c' ∨ k = 'd') :
    (onPress c k).input = double_to_str (c.memory (k.toNat - 'a'.toNat)) ∧
    (onPress c k).staleInput = c.staleInput ∧
    (onPress c k).result = c.result ∧
    (onPress c k).pendingOperation = c.pendingOperation := by
  rcases h with rfl | rfl | rfl | rfl <;>
    simp +decide [onPress, doOperation, loadMemory]

/-- Witness for C4 amended: recalling slot `a` in the initial (stale) state
keeps the stale flag raised. -/
theorem C4_recall_amended_witness :
    ('a' = 'a' ∨ 'a' = 'b' ∨ 'a' = 'c' ∨ 'a' = 'd') ∧
    (onPress (initCalc (fun _ => Q.ofInt 5) false) 'a').staleInput
      = (initCalc (fun _ => Q.ofInt 5) false).staleInput :=
  ⟨by decide, (C4_recall_amended (initCalc (fun _ => Q.ofInt 5) false) 'a' (by decide)).2.1⟩

/-! ### C5: mode re-entry -/

/-- C5 counterexample: after `7 / 0 =` the pending operator is `/` and the
error flag is raised; re-entering the mode (`onShow`) leaves both as they
were, so the machine is not back in its initial state. -/
theorem C5_onshow_counterexample :
    (onShow (pressList (initCalc (fun _ => Q.zero) false)
      ['7', '/', '0', '\n'])).pendingOperation = '/' ∧
    (onShow (pressList (initCalc (fun _ => Q.zero) false)
      ['7', '/', '0', '\n'])).error = true := by
  decide

/-- C5 amended: `onShow` empties the input buffer, raises the stale flag,
resets the running result to zero with display `"0"` and raises the redraw
flag, but leaves the pending operator and the error flag unchanged. -/
theorem C5_onshow_amended (c : Calculator) :
    (onShow c).input = [] ∧
    (onShow c).staleInput = true ∧
    (onShow c).result = Q.zero ∧
    (onShow c).resultBuffer = ['0'] ∧
    (onShow c).pendingOperation = c.pendingOperation ∧
    (onShow c).error = c.error ∧
    (onShow c).drawNext = true := by
  simp [onShow, clearResult, clearInput, updateResultBuffer, double_to_str_zero]

/-! ### C6: zero suppression -/

/-- C6 counterexample: the zero-suppression test looks only at the first one
or two characters of the buffer, so with the non-stale buffer `"0.5"` —
neither exactly `"0"` nor `"-0"` — a `0` press is still a no-op instead of
appending. -/
theorem C6_zero_counterexample :
    (pressList (initCalc (fun _ => Q.zero) false) ['0', '.', '5']).input
      = ['0', '.', '5'] ∧
    (pressList (initCalc (fun _ => Q.zero) false) ['0', '.', '5']).staleInput = false ∧
    (pressList (initCalc (fun _ => Q.zero) false) ['0', '.', '5', '0']).input
      = ['0', '.', '5'] := by
  decide

/-- C6 amended: with a non-stale buffer, a `0` press leaves the buffer
unchanged exactly when the buffer starts with `'0'`, or with `'-'` followed
by `'0'` (a prefix test, not equality with `"0"` or `"-0"`), or the buffer is
at capacity; any digit press that escapes both the zero suppression and the
capacity bound appends that digit. -/
theorem C6_zero_amended (c : Calculator) (h : c.staleInput = false) :
    ((onPress c '0').input = c.input ↔
      (chAt c.input 0 = '0' ∨ (chAt c.input 0 = '-' ∧ chAt c.input 1 = '0')) ∨
      CALC_VALUE_SIZE ≤ c.input.length) ∧
    (∀ d : Char, '0' ≤ d → d ≤ '9' →
      ((chAt c.input 0 = '0' ∨ (chAt c.input 0 = '-' ∧ chAt c.input 1 = '0')) → d ≠ '0') →
      c.input.length < CALC_VALUE_SIZE →
      (onPress c d).input = c.input ++ [d]) := by
  constructor
  · by_cases hc : chAt c.input 0 = '0' ∨ (chAt c.input 0 = '-' ∧ chAt c.input 1 = '0')
    · simp +decide [onPress, doNumeric, h, hc]
    · by_cases hl : c.input.length < CALC_VALUE_SIZE
      · have hnl : ¬ CALC_VALUE_SIZE ≤ c.input.length := not_le.mpr hl
        simp +decide [onPress, doNumeric, pushInput, push, h, hc, hl, hnl]
      · have hnl : CALC_VALUE_SIZE ≤ c.input.length := not_lt.mp hl
        simp +decide [onPress, doNumeric, pushInput, push, h, hc, hl, hnl]
  · intro d h0 h9 himp hlen
    by_cases hzero : d = '0'
    · subst hzero
      have hc : ¬ (chAt c.input 0 = '0' ∨ (chAt c.input 0 = '-' ∧ chAt c.input 1 = '0')) :=
        fun hcc => (himp hcc) rfl
      simp +decide [onPress, doNumeric, pushInput, push, h, hc, hlen]
    · simp [onPress, doNumeric, pushInput, push, h, hzero, hlen, h0, h9]

/-- Witness for C6 amended: with buffer `"0.5"`, a `0` press is a no-op and a
`7` press appends. -/
theorem C6_zero_amended_witness :
    (pressList (initCalc (fun _ => Q.zero) false) ['0', '.', '5']).staleInput = false ∧
    (onPress (pressList (initCalc (fun _ => Q.zero) false) ['0', '.', '5']) '0').input
      = (pressList (initCalc (fun _ => Q.zero) false) ['0', '.', '5']).input ∧
    (onPress (pressList (initCalc (fun _ => Q.zero) false) ['0', '.', '5']) '7').input
      = (pressList (initCalc (fun _ => Q.zero) false) ['0', '.', '5']).input ++ ['7'] :=
  ⟨by decide,
   ((C6_zero_amended (pressList (initCalc (fun _ => Q.zero) false) ['0', '.', '5'])
      (by decide)).1).mpr (by decide),
   (C6_zero_amended (pressList (initCalc (fun _ => Q.zero) false) ['0', '.', '5'])
      (by decide)).2 '7' (by decide) (by decide) (by decide) (by decide)⟩

/-! ### C7: result display sync -/

/-- C7 counterexample: entering `5` and pressing `+` commits with no pending
operator; the running result becomes 5 but the display buffer is not updated
and `getResult` still yields `"0"` instead of the formatted result `"5"`. -/
theorem C7_display_counterexample :
    (pressList (initCalc (fun _ => Q.zero) false) ['5', '+']).result = Q.ofInt 5 ∧
    getResult (pressList (initCalc (fun _ => Q.zero) false) ['5', '+']) = ['0'] ∧
    double_to_str (pressList (initCalc (fun _ => Q.zero) false) ['5', '+']).result
      = ['5'] := by
  decide

/-- C7 amended: a commit through an arithmetic operator keeps the display in
sync (the display buffer is the formatted running result); but a commit with
no recognized pending operator (in particular the initial NUL operator, the
seeding commit the claim singles out) replaces the running result with the
parsed input and returns without updating the display buffer, leaving the
stale display. -/
theorem C7_display_amended (c : Calculator) :
    ((doMath c '+').resultBuffer = double_to_str ((doMath c '+').result)) ∧
    ((doMath c '-').resultBuffer = double_to_str ((doMath c '-').result)) ∧
    ((doMath c '*').resultBuffer = double_to_str ((doMath c '*').result)) ∧
    ((doMath c 'x').resultBuffer = double_to_str ((doMath c 'x').result)) ∧
    (Q.beq (atofQ (getInput c)) Q.zero = false →
      (doMath c '/').resultBuffer = double_to_str ((doMath c '/').result)) ∧
    ((doMath c (Char.ofNat 0)).result = atofQ (getInput c) ∧
      (doMath c (Char.ofNat 0)).resultBuffer = c.resultBuffer) := by
  refine ⟨?_, ?_, ?_, ?_, ?_, ?_⟩
  · simp +decide [doMath, updateResultBuffer]
  · simp +decide [doMath, updateResultBuffer]
  · simp +decide [doMath, updateResultBuffer]
  · simp +decide [doMath, updateResultBuffer]
  · intro hbeq
    simp +decide [doMath, updateResultBuffer, hbeq]
  · simp +decide [doMath, updateResultBuffer]

/-- Witness for C7 amended: dividing by the entered `5` updates the display
to the formatted quotient. -/
theorem C7_display_amended_witness :
    (doMath (pressList (initCalc (fun _ => Q.zero) false) ['5']) '/').resultBuffer
      = double_to_str ((doMath (pressList (initCalc (fun _ => Q.zero) false) ['5'])
          '/').result) :=
  (C7_display_amended (pressList (initCalc (fun _ => Q.zero) false) ['5'])).2.2.2.2.1
    (by decide)

/-! ### C8: memory round trip -/

/-- C8 counterexample: the slot stores the double exactly, but recall formats
it through `double_to_str` (4 fractional digits, trimmed); storing the result
1.00001 (entered as `1.00001` then `+`), clearing the input and recalling
yields the buffer `"1"`, whose value differs from the stored one. -/
theorem C8_roundtrip_counterexample :
    (onLongPress (pressList (initCalc (fun _ => Q.zero) false)
      ['1', '.', '0', '0', '0', '0', '1', '+']) 'a').memory 0 = ⟨100001, 100000⟩ ∧
    (onPress (onPress (onLongPress (pressList (initCalc (fun _ => Q.zero) false)
      ['1', '.', '0', '0', '0', '0', '1', '+']) 'a') 'C') 'a').input = ['1'] ∧
    Q.beq (atofQ ['1']) ⟨100001, 100000⟩ = false := by
  decide

/-- C8 amended: store always succeeds and overwrites its slot, leaving the
other slots untouched; recall places the formatted rendering
(`double_to_str`) of the slot's last stored value into the input buffer — so
the store/clear/recall round trip reproduces the stored value only up to
that 4-digit formatting, not exactly. -/
theorem C8_roundtrip_amended (c : Calculator) (s : Nat) :
    (storeMemory c s c.result).memory s = c.result ∧
    (∀ t, t ≠ s → (storeMemory c s c.result).memory t = c.memory t) ∧
    (loadMemory (storeMemory c s c.result) s).input = double_to_str c.result ∧
    (c.resultBuffer ≠ [] →
      (onPress (onPress (onLongPress c 'a') 'C') 'a').input
        = double_to_str c.result) := by
  refine ⟨by simp [storeMemory], fun t ht => by simp [storeMemory, ht], by
    simp [loadMemory, storeMemory], fun hb => by
    simp +decide [onPress, onLongPress, doOperation, loadMemory, storeMemory,
      getResult, clearInput, hb]⟩

/-- Witness for C8 amended: in the initial state (display `"0"`), storing
slot 0 leaves slot 1 alone, and the long-press/clear/recall key sequence
reproduces the formatted zero. -/
theorem C8_roundtrip_amended_witness :
    (storeMemory (initCalc (fun _ => Q.zero) false) 0
        (initCalc (fun _ => Q.zero) false).result).memory 1
      = (initCalc (fun _ => Q.zero) false).memory 1 ∧
    (onPress (onPress (onLongPress (initCalc (fun _ => Q.zero) false) 'a') 'C') 'a').input
      = double_to_str (initCalc (fun _ => Q.zero) false).result :=
  ⟨(C8_roundtrip_amended (initCalc (fun _ => Q.zero) false) 0).2.1 1 (by decide),
   (C8_roundtrip_amended (initCalc (fun _ => Q.zero) false) 0).2.2.2 (by decide)⟩

/-! ### C9: buffer capacity -/

theorem clearInput_fit (c : Calculator) (h : BuffersFit c) : BuffersFit (clearInput c) :=
  ⟨by simp [clearInput], h.2⟩

theorem pushInput_fit (c : Calculator) (v : Char) (h : BuffersFit c) :
    BuffersFit (pushInput c v) := by
  refine ⟨push_length_le _ _ ?_, h.2⟩
  split
  · simp
  · exact h.1

theorem doNumeric_fit (c : Calculator) (d : Char) (h : BuffersFit c) :
    BuffersFit (doNumeric c d) := by
  unfold doNumeric
  split_ifs
  · exact pushInput_fit _ _ (clearInput_fit _ h)
  · exact h
  · exact pushInput_fit _ _ h

theorem doMath_fit (c : Calculator) (op : Char) (h : BuffersFit c) :
    BuffersFit (doMath c op) := by
  obtain ⟨h1, h2⟩ := h
  simp only [doMath]
  split_ifs <;>
    simp_all [BuffersFit, updateResultBuffer, double_to_str_length_le]

theorem doOperation_fit (c : Calculator) (op : Char) (h : BuffersFit c) :
    BuffersFit (doOperation c op) := by
  obtain ⟨h1, h2⟩ := h
  simp only [doOperation]
  split_ifs
  · exact ⟨double_to_str_length_le _, h2⟩
  · exact ⟨by simp [CALC_VALUE_SIZE], h2⟩
  · exact ⟨(doMath_fit c _ ⟨h1, h2⟩).1, (doMath_fit c _ ⟨h1, h2⟩).2⟩
  · exact ⟨h1, h2⟩
  · exact ⟨h1, double_to_str_length_le _⟩
  · exact ⟨by simp [clearInput], h2⟩
  · exact pushInput_fit _ '.' (pushInput_fit _ '0' ⟨h1, h2⟩)
  · exact pushInput_fit _ '0' ⟨h1, h2⟩
  · exact pushInput_fit _ '.' ⟨h1, h2⟩
  · exact ⟨h1, h2⟩
  · exact ⟨(doMath_fit c _ ⟨h1, h2⟩).1, (doMath_fit c _ ⟨h1, h2⟩).2⟩
  · exact ⟨h1, h2⟩

theorem onPress_fit (c : Calculator) (ch : Char) (h : BuffersFit c) :
    BuffersFit (onPress c ch) := by
  simp only [onPress]
  split_ifs
  · exact doNumeric_fit _ _ ⟨h.1, h.2⟩
  · exact doOperation_fit _ _ ⟨h.1, h.2⟩

theorem onLongPress_fit (c : Calculator) (ch : Char) (h : BuffersFit c) :
    BuffersFit (onLongPress c ch) := by
  simp only [onLongPress]
  split_ifs
  · exact ⟨h.2, h.2⟩
  · exact h

/-- C9: from a state whose buffers fit (as the initial state does), any press
or long press keeps the input buffer within the `CALC_VALUE_SIZE = 16`
capacity (the model's list is exactly the NUL-terminated content), and a
character push on a buffer already holding 16 characters is rejected as a
silent no-op — the buffer is returned unchanged, never truncated. -/
theorem C9_capacity (mem : Nat → Q) (err : Bool) (c : Calculator) (ch : Char)
    (h : BuffersFit c) :
    BuffersFit (initCalc mem err) ∧
    BuffersFit (onPress c ch) ∧
    BuffersFit (onLongPress c ch) ∧
    (c.input.length = CALC_VALUE_SIZE → push c.input ch = c.input) :=
  ⟨⟨by simp [initCalc, clearResult, clearInput, updateResultBuffer],
    by simp [initCalc, clearResult, clearInput, updateResultBuffer, double_to_str_zero,
      CALC_VALUE_SIZE]⟩,
   onPress_fit c ch h, onLongPress_fit c ch h,
   fun hf => push_at_capacity _ _ hf⟩

/-- Witness for C9: a 16-digit entry fills the buffer; the 17th character is
rejected without truncation. -/
theorem C9_capacity_witness :
    BuffersFit (onPress (pressList (initCalc (fun _ => Q.zero) false)
      ['1', '2', '3', '4', '5', '6', '7', '8', '9', '1', '2', '3', '4', '5', '6', '7']) '9') ∧
    push (pressList (initCalc (fun _ => Q.zero) false)
      ['1', '2', '3', '4', '5', '6', '7', '8', '9', '1', '2', '3', '4', '5', '6', '7']).input '9'
      = (pressList (initCalc (fun _ => Q.zero) false)
      ['1', '2', '3', '4', '5', '6', '7', '8', '9', '1', '2', '3', '4', '5', '6', '7']).input :=
  ⟨(C9_capacity (fun _ => Q.zero) false (pressList (initCalc (fun _ => Q.zero) false)
      ['1', '2', '3', '4', '5', '6', '7', '8', '9', '1', '2', '3', '4', '5', '6', '7']) '9'
      ⟨by decide, by decide⟩).2.1,
   (C9_capacity (fun _ => Q.zero) false (pressList (initCalc (fun _ => Q.zero) false)
      ['1', '2', '3', '4', '5', '6', '7', '8', '9', '1', '2', '3', '4', '5', '6', '7']) '9'
      ⟨by decide, by decide⟩).2.2.2 (by decide)⟩

/-! ### C10: long-press memory store -/

/-- C10: a long press of a memory key stores the current numeric running
result into that slot (other slots untouched) and copies the result display
string (`getResult`, the formatted display buffer) into the input buffer;
the running result itself is unchanged. -/
theorem C10_longpress_store (c : Calculator) (k : Char)
    (h : k = 'a' ∨ k = 'b' ∨ k = 'c' ∨ k = 'd') :
    (onLongPress c k).memory (k.toNat - 'a'.toNat) = c.result ∧
    (onLongPress c k).input = getResult c ∧
    (onLongPress c k).result = c.result ∧
    (∀ t, t ≠ k.toNat - 'a'.toNat → (onLongPress c k).memory t = c.memory t) := by
  rcases h with rfl | rfl | rfl | rfl <;>
    exact ⟨by simp +decide [onLongPress, storeMemory, getResult],
      by simp +decide [onLongPress, storeMemory, getResult],
      by simp +decide [onLongPress, storeMemory, getResult],
      fun t ht => by
        simp +decide at ht
        simp +decide [onLongPress, storeMemory, getResult, ht]⟩

/-- Witness for C10: long-pressing `a` in the initial state stores the zero
result into slot 0 and copies the display `"0"` into the input. -/
theorem C10_longpress_store_witness :
    (onLongPress (initCalc (fun _ => Q.zero) false) 'a').memory ('a'.toNat - 'a'.toNat)
      = (initCalc (fun _ => Q.zero) false).result ∧
    (onLongPress (initCalc (fun _ => Q.zero) false) 'a').input
      = getResult (initCalc (fun _ => Q.zero) false) :=
  ⟨(C10_longpress_store (initCalc (fun _ => Q.zero) false) 'a' (by decide)).1,
   (C10_longpress_store (initCalc (fun _ => Q.zero) false) 'a' (by decide)).2.1⟩

end Numcal
